import Mathlib

/-!
# Verification of the irrigation-copilot domain and data layers

Shallow embedding of the repository's pure computation paths:
unit conversions (`app/domain/units.py`), profile construction and
validation (`app/domain/models.py`), the coefficient catalog lookups
(`app/domain/kc_catalog.py`), the irrigation engine
(`app/domain/irrigation_engine.py`), station matching
(`app/data/station_matching.py`), the forecast payload parser
(`app/data/moag_parser.py`), the forecast service orchestration
(`app/data/forecast_service.py`) and the forecast client retry loop
(`app/data/moag_client.py`).

Python floats are modelled as exact rationals (`ℚ`); fallible code
returns `Except`; dict-shaped JSON is modelled by an inductive value
type with insertion-ordered association lists.
-/

namespace Irrigation

/-! ## Unit conversion helpers (`app/domain/units.py`) -/

/-- `mm_to_liters(mm, area_m2)`: validates both inputs non-negative,
returns `mm * area_m2`. -/
def mm_to_liters (mm area_m2 : ℚ) : Except String ℚ :=
  if mm < 0 then .error "mm must be non-negative"
  else if area_m2 < 0 then .error "area_m2 must be non-negative"
  else .ok (mm * area_m2)

/-- `dunam_to_m2(dunam)`: validates non-negative, returns `dunam * 1000`. -/
def dunam_to_m2 (dunam : ℚ) : Except String ℚ :=
  if dunam < 0 then .error "dunam must be non-negative"
  else .ok (dunam * 1000)

/-- `m2_to_dunam(m2)`: the source performs no validation (the body is
just `return m2 / 1000.0`, with a "TODO: Implement conversion" comment
and no negativity check). -/
def m2_to_dunam (m2 : ℚ) : Except String ℚ :=
  .ok (m2 / 1000)

/-- `liters_to_ml(liters)`: validates non-negative, returns `liters * 1000`. -/
def liters_to_ml (liters : ℚ) : Except String ℚ :=
  if liters < 0 then .error "liters must be non-negative"
  else .ok (liters * 1000)

/-- `liters_per_dunam_to_mm_per_day(x)`: validates non-negative, returns `x / 1000`. -/
def liters_per_dunam_to_mm_per_day (liters_per_dunam : ℚ) : Except String ℚ :=
  if liters_per_dunam < 0 then .error "liters_per_dunam must be non-negative"
  else .ok (liters_per_dunam / 1000)

/-! ## Domain models (`app/domain/models.py`) -/

/-- The `mode` literal of `ProfileInput`. -/
inductive Mode where
  | farm
  | plant
deriving DecidableEq, Repr

/-- The `indoor_outdoor` literal of `ProfileInput`. -/
inductive IndoorOutdoor where
  | indoor
  | outdoor
deriving DecidableEq, Repr

/-- Field record of `ProfileInput` (before/after validation: pydantic
validators return the same object). -/
structure ProfileInput where
  mode : Mode
  lat : ℚ
  lon : ℚ
  area_m2 : Option ℚ := none
  area_dunam : Option ℚ := none
  crop_name : Option String := none
  stage : Option String := none
  pot_volume_liters : Option ℚ := none
  pot_diameter_cm : Option ℚ := none
  plant_profile_name : Option String := none
  indoor_outdoor : Option IndoorOutdoor := some .indoor
  irrigation_method : Option String := none
  efficiency : Option ℚ := none
deriving DecidableEq, Repr

/-- Python truthiness of an optional float: `None` and `0.0` are falsy. -/
def truthyQ : Option ℚ → Bool
  | none => false
  | some x => x ≠ 0

/-- Python truthiness of an optional string: `None` and `""` are falsy. -/
def truthyS : Option String → Bool
  | none => false
  | some s => s ≠ ""

/-- `ProfileInput.validate_mode_fields` (pydantic `model_validator`,
`mode="after"`): mode-conditional required-field checks, written with
Python truthiness (`not self.area_m2` etc.). -/
def validate_mode_fields (p : ProfileInput) : Except String ProfileInput :=
  match p.mode with
  | .farm =>
    if ¬ (truthyQ p.area_m2 ∨ truthyQ p.area_dunam) then
      .error "Farm mode requires either area_m2 or area_dunam"
    else if ¬ truthyS p.crop_name then
      .error "Farm mode requires crop_name"
    else .ok p
  | .plant =>
    if ¬ (truthyQ p.pot_volume_liters ∨ truthyQ p.pot_diameter_cm) then
      .error "Plant mode requires either pot_volume_liters or pot_diameter_cm"
    else if ¬ truthyS p.plant_profile_name then
      .error "Plant mode requires plant_profile_name"
    else .ok p

/-- Construction of a `ProfileInput`: pydantic first applies per-field
constraints (the only ranged field is `efficiency`, declared
`ge=0.0, le=1.0`; `lat` and `lon` are declared as plain floats with no
bounds), then runs `validate_mode_fields`. -/
def mkProfileInput (p : ProfileInput) : Except String ProfileInput :=
  match p.efficiency with
  | some e =>
    if e < 0 ∨ 1 < e then
      .error "efficiency: Input should be greater than or equal to 0 and less than or equal to 1"
    else validate_mode_fields p
  | none => validate_mode_fields p

/-- Calendar date (`datetime.date`). -/
structure PDate where
  year : ℕ
  month : ℕ
  day : ℕ
deriving DecidableEq, Repr

/-- `ForecastPoint` (`app/domain/models.py`): one normalized daily
weather record. -/
structure ForecastPoint where
  date : PDate
  lat : ℚ
  lon : ℚ
  evap_mm : ℚ
  temp_min : Option ℚ := none
  temp_max : Option ℚ := none
  name : Option String := none
  geographic_area : Option String := none
deriving DecidableEq, Repr

/-! ## Coefficient catalog (`app/domain/kc_catalog.py`)

The catalog is loaded from on-disk JSON records at process start; here
the loaded state is a parameter: two association maps from lowercased
trimmed names to coefficient records, mirroring `_load_crop_coefficients`
and `_load_plant_coefficients` output. -/

/-- One crop coefficient record (`data/coefficients/*.json`, crop kind):
`coefficients.type` plus the stage fields. -/
structure CropData where
  coeffType : String := "stage"
  kc_initial : Option ℚ := none
  kc_mid : Option ℚ := none
  kc_end : Option ℚ := none
deriving DecidableEq, Repr

/-- One plant-profile coefficient record (`profile_type = "plant"`). -/
structure PlantData where
  coeffType : String := "single"
  kc_value : Option ℚ := none
deriving DecidableEq, Repr

/-- The in-memory catalog state after loading: crop map and plant map. -/
structure Catalog where
  crops : List (String × CropData) := []
  plants : List (String × PlantData) := []

/-- Python `dict.get` on an insertion-ordered association list. -/
def dictGet {α : Type} (kvs : List (String × α)) (key : String) : Option α :=
  (kvs.find? (fun kv => kv.1 = key)).map Prod.snd

/-- Python `str.lower()` (character-wise). -/
def pyLower (s : String) : String := ⟨s.data.map Char.toLower⟩

/-- Python whitespace (the set `str.strip()` removes). -/
def isPySpace (c : Char) : Bool :=
  c = ' ' ∨ c = '\t' ∨ c = '\n' ∨ c = '\r' ∨ c = '\x0b' ∨ c = '\x0c'

/-- Python `str.strip()`: drop leading and trailing whitespace. -/
def pyStrip (s : String) : String :=
  ⟨((s.data.dropWhile isPySpace).reverse.dropWhile isPySpace).reverse⟩

/-- Python `str.split(sep)` for a single-character separator, on
character lists. -/
def listSplitOn (sep : Char) : List Char → List (List Char)
  | [] => [[]]
  | c :: rest =>
    let r := listSplitOn sep rest
    if c = sep then [] :: r
    else
      match r with
      | [] => [[c]]
      | h :: t => (c :: h) :: t

/-- Decimal digits to a natural number. -/
def digitsToNat (l : List Char) : ℕ :=
  l.foldl (fun acc c => acc * 10 + (c.toNat - 48)) 0

instance {ε α : Type} [DecidableEq ε] [DecidableEq α] : DecidableEq (Except ε α) :=
  fun x y =>
    match x, y with
    | .ok a, .ok b =>
      if h : a = b then .isTrue (by rw [h]) else .isFalse (by simp [h])
    | .error a, .error b =>
      if h : a = b then .isTrue (by rw [h]) else .isFalse (by simp [h])
    | .ok _, .error _ => .isFalse (by simp)
    | .error _, .ok _ => .isFalse (by simp)

/-- Errors raised by catalog lookups: `UnknownCropError` is a distinct
subclass of `ValueError` in the source. -/
inductive KcError where
  | unknownCrop (name : String)
  | invalidValue (msg : String)
deriving DecidableEq, Repr

/-- `get_kc_stage(crop_name, stage)`: case-insensitive lookup; stage
mapped `initial/mid/late → kc_initial/kc_mid/kc_end`; fails on unknown
crop, non-stage coefficient type, invalid stage, or missing field. -/
def get_kc_stage (catalog : Catalog) (crop_name stage : String) : Except KcError ℚ :=
  let crop_key := pyStrip (pyLower crop_name)
  match dictGet catalog.crops crop_key with
  | none => .error (.unknownCrop crop_name)
  | some crop_data =>
    if crop_data.coeffType ≠ "stage" then
      .error (.invalidValue "unsupported coefficient type")
    else
      let stage_lower := pyStrip (pyLower stage)
      let kc_field : Option (Option ℚ) :=
        if stage_lower = "initial" then some crop_data.kc_initial
        else if stage_lower = "mid" then some crop_data.kc_mid
        else if stage_lower = "late" then some crop_data.kc_end
        else none
      match kc_field with
      | none => .error (.invalidValue "invalid stage")
      | some none => .error (.invalidValue "no coefficient for stage")
      | some (some kc) => .ok kc

/-- `get_plant_kc(profile_name)`: case-insensitive lookup in the plant
map; requires a single-valued coefficient record. -/
def get_plant_kc (catalog : Catalog) (profile_name : String) : Except KcError ℚ :=
  let profile_key := pyStrip (pyLower profile_name)
  match dictGet catalog.plants profile_key with
  | none => .error (.unknownCrop profile_name)
  | some profile_data =>
    if profile_data.coeffType ≠ "single" then
      .error (.invalidValue "unsupported coefficient type")
    else
      match profile_data.kc_value with
      | none => .error (.invalidValue "missing kc_value")
      | some kc => .ok kc

/-! ## Irrigation engine (`app/domain/irrigation_engine.py`) -/

/-- `IrrigationPlan` output record; `inputs_used` is the dict with the
four keys `kc`, `efficiency`, `area_m2`, `evap_mm`. -/
structure IrrigationPlan where
  date : PDate
  mode : Mode
  liters_per_day : Option ℚ
  liters_per_dunam : Option ℚ
  ml_per_day : Option ℚ
  pulses_per_day : ℕ
  inputs_kc : ℚ
  inputs_efficiency : ℚ
  inputs_area_m2 : ℚ
  inputs_evap_mm : ℚ
  coefficient_value_used : ℚ
  warnings : List String
deriving DecidableEq, Repr

/-- The float64 value of Python's `math.pi`, as an exact rational. -/
def mathPi : ℚ := 884279719003555 / 281474976710656

/-- The stage-defaulting warning appended by `compute_plan`. -/
def stageDefaultWarning : String :=
  "Stage not provided, defaulting to mid. Provide stage for more accurate results."

/-- Farm-mode area resolution (lines 36–42): `area_m2` if present
(`is not None`), else `area_dunam` converted via `dunam_to_m2` (whose
negativity error propagates), else the missing-area error. -/
def resolveFarmArea (profile : ProfileInput) : Except String ℚ :=
  match profile.area_m2 with
  | some a => .ok a
  | none =>
    match profile.area_dunam with
    | some d => dunam_to_m2 d
    | none => .error "Farm mode requires area_m2 or area_dunam"

/-- Plant-mode area resolution (lines 76–92): `pot_volume_liters * 0.01`
if present, else a circle of diameter `pot_diameter_cm`, else the
missing-pot-size error. -/
def resolvePlantArea (profile : ProfileInput) : Except String ℚ :=
  match profile.pot_volume_liters with
  | some v => .ok (v * (1 / 100))
  | none =>
    match profile.pot_diameter_cm with
    | some dcm =>
      let radius_m := (dcm / 100) / 2
      .ok (mathPi * radius_m * radius_m)
    | none => .error "Plant mode requires pot_volume_liters or pot_diameter_cm"

/-- Stage defaulting (lines 49–57): Python truthiness (`if not stage`),
so `None` and `""` both default to `"mid"` with a warning. Returns the
stage used and the warnings produced. -/
def resolveStage (profile : ProfileInput) : String × List String :=
  match profile.stage with
  | none => ("mid", [stageDefaultWarning])
  | some s => if s = "" then ("mid", [stageDefaultWarning]) else (s, [])

/-- Area and Kc resolution: the mode branch of `compute_plan` (lines
34–110 of `irrigation_engine.py`). Returns `(area_m2, kc, warnings)`.
Area must be strictly positive in both modes; Kc comes from
`get_kc_stage` (farm, on `crop_name or ""` and the resolved stage) or
`get_plant_kc` (plant, on `plant_profile_name or ""`), with
`UnknownCropError` re-wrapped into a "not supported" `ValueError` and
other lookup errors propagated. -/
def resolveAreaKc (catalog : Catalog) (profile : ProfileInput) :
    Except String (ℚ × ℚ × List String) :=
  match profile.mode with
  | .farm =>
    match resolveFarmArea profile with
    | .error e => .error e
    | .ok area_m2 =>
      if area_m2 ≤ 0 then
        .error "Area must be positive"
      else
        match get_kc_stage catalog (profile.crop_name.getD "") (resolveStage profile).1 with
        | .error (.unknownCrop _) =>
          .error ("Crop " ++ profile.crop_name.getD "" ++ " is not supported.")
        | .error (.invalidValue msg) => .error msg
        | .ok kc => .ok (area_m2, kc, (resolveStage profile).2)
  | .plant =>
    match resolvePlantArea profile with
    | .error e => .error e
    | .ok area_m2 =>
      if area_m2 ≤ 0 then
        .error "Pot size must be positive"
      else
        match get_plant_kc catalog (profile.plant_profile_name.getD "") with
        | .error (.unknownCrop _) =>
          .error ("Plant profile " ++ profile.plant_profile_name.getD "" ++ " is not supported.")
        | .error (.invalidValue msg) => .error msg
        | .ok kc => .ok (area_m2, kc, [])

/-- Efficiency resolution (lines 112–124): explicit `profile.efficiency`
if present, else by lowercased `irrigation_method` (`drip → 0.9`,
`sprinkler → 0.75`), else 0.85 for farm and 1.0 for plant. -/
def resolveEfficiency (profile : ProfileInput) : ℚ :=
  match profile.efficiency with
  | some e => e
  | none =>
    let method := pyLower (profile.irrigation_method.getD "")
    if method = "drip" then 9 / 10
    else if method = "sprinkler" then 3 / 4
    else match profile.mode with
      | .farm => 17 / 20
      | .plant => 1

/-- Farm-mode output assembly (lines 135–197): the pulse heuristic on
`liters_per_m2 > 10` and `liters_per_dunam = liters_per_day / area * 1000`. -/
def farmPlan (forecast : ForecastPoint) (area_m2 kc efficiency : ℚ)
    (warnings0 : List String) (liters_per_day : ℚ) : IrrigationPlan :=
  let liters_per_m2 := if 0 < area_m2 then liters_per_day / area_m2 else 0
  { date := forecast.date
    mode := .farm
    liters_per_day := some liters_per_day
    liters_per_dunam := some (if 0 < area_m2 then liters_per_day / area_m2 * 1000 else 0)
    ml_per_day := none
    pulses_per_day := if 10 < liters_per_m2 then 2 else 1
    inputs_kc := kc
    inputs_efficiency := efficiency
    inputs_area_m2 := area_m2
    inputs_evap_mm := forecast.evap_mm
    coefficient_value_used := kc
    warnings := warnings0 ++
      (if 10 < liters_per_m2 then
        ["High water requirement detected. Consider splitting irrigation."]
      else []) }

/-- Plant-mode output assembly (lines 150–211): the pulse heuristic on
outdoor placement with `evap_mm > 8`. -/
def plantPlan (profile : ProfileInput) (forecast : ForecastPoint)
    (area_m2 kc efficiency : ℚ) (warnings0 : List String)
    (ml_per_day : ℚ) : IrrigationPlan :=
  let outdoorHighEvap :=
    profile.indoor_outdoor = some .outdoor ∧ 8 < forecast.evap_mm
  { date := forecast.date
    mode := .plant
    liters_per_day := none
    liters_per_dunam := none
    ml_per_day := some ml_per_day
    pulses_per_day := if outdoorHighEvap then 2 else 1
    inputs_kc := kc
    inputs_efficiency := efficiency
    inputs_area_m2 := area_m2
    inputs_evap_mm := forecast.evap_mm
    coefficient_value_used := kc
    warnings := warnings0 ++
      (if outdoorHighEvap then
        ["High evaporation detected for outdoor plant."]
      else []) }

/-- `compute_plan(profile, forecast)`: the pure engine. Resolves area,
Kc and efficiency, validates efficiency in `(0, 1]`, computes
`base_liters = mm_to_liters(evap_mm * kc, area_m2)` and
`liters_per_day = max(0, base_liters / efficiency)`, applies the pulse
heuristic, and assembles the mode-specific output. -/
def compute_plan (catalog : Catalog) (profile : ProfileInput)
    (forecast : ForecastPoint) : Except String IrrigationPlan :=
  match resolveAreaKc catalog profile with
  | .error e => .error e
  | .ok (area_m2, kc, warnings0) =>
    if resolveEfficiency profile ≤ 0 ∨ 1 < resolveEfficiency profile then
      .error "Efficiency must be in (0, 1]"
    else
      match mm_to_liters (forecast.evap_mm * kc) area_m2 with
      | .error e => .error e
      | .ok base_liters =>
        match profile.mode with
        | .farm =>
          .ok (farmPlan forecast area_m2 kc (resolveEfficiency profile) warnings0
            (max 0 (base_liters / resolveEfficiency profile)))
        | .plant =>
          match liters_to_ml (max 0 (base_liters / resolveEfficiency profile)) with
          | .error e => .error e
          | .ok ml_per_day =>
            .ok (plantPlan profile forecast area_m2 kc (resolveEfficiency profile)
              warnings0 ml_per_day)

/-! ## Station matching (`app/data/station_matching.py`)

`haversine_km` is transcendental floating-point math (sin/cos/asin/sqrt);
the selection logic of `pick_nearest_point` is embedded over an abstract
distance function `d user_lat user_lon point_lat point_lon`, which the
source instantiates with `haversine_km`. -/

/-- `EPSILON_KM = 0.001` (1 meter), the near-tie tolerance. -/
def EPSILON_KM : ℚ := 1 / 1000

/-- `_is_valid_coordinate(lat, lon)`: lenient range check for source
points. -/
def is_valid_coordinate (lat lon : ℚ) : Bool :=
  (-90 ≤ lat ∧ lat ≤ 90) ∧ (-180 ≤ lon ∧ lon ≤ 180)

/-- Errors raised by `pick_nearest_point`: strict user-coordinate
`ValueError`s, the empty-list `ValueError`, and
`InvalidCoordinatesError` with its diagnostics. -/
inductive PickError where
  | invalidUserLat (lat : ℚ)
  | invalidUserLon (lon : ℚ)
  | emptyPoints
  | allInvalid (total_points : ℕ) (skipped_count : ℕ)
      (skipped_points : List (Option String × Option String × ℚ × ℚ))
deriving DecidableEq, Repr

/-- The name/area/lat/lon tuple recorded for a skipped point. -/
def skippedTuple (p : ForecastPoint) : Option String × Option String × ℚ × ℚ :=
  (p.name, p.geographic_area, p.lat, p.lon)

/-- The tie-break sort key `(geographic_area or "", name or "", lat, lon)`,
with lexicographic tuple comparison. -/
def sortKey (p : ForecastPoint) : Lex (String × Lex (String × Lex (ℚ × ℚ))) :=
  toLex (p.geographic_area.getD "", toLex (p.name.getD "", toLex (p.lat, p.lon)))

/-- "Comes no later in the sort order": the comparison
`candidates.sort(key=...)` orders by. -/
def keyLe (a b : ForecastPoint) : Prop := sortKey a ≤ sortKey b

instance : DecidableRel keyLe := fun a b =>
  inferInstanceAs (Decidable (sortKey a ≤ sortKey b))

instance : IsTotal ForecastPoint keyLe :=
  ⟨fun a b => le_total (sortKey a) (sortKey b)⟩

instance : IsTrans ForecastPoint keyLe :=
  ⟨fun _ _ _ => le_trans⟩

/-- The list-sort performed by `candidates.sort(key=...)` (a stable sort
by ascending key), as insertion sort. -/
def sortByKey (l : List ForecastPoint) : List ForecastPoint :=
  l.insertionSort keyLe

/-- Python `min` over a nonempty list, folded left. -/
def listMin (x : ℚ) (xs : List ℚ) : ℚ := xs.foldl min x

/-- Step 3's surviving candidates: the points passing the lenient
coordinate check, in order. -/
def validCandidates (points : List ForecastPoint) : List ForecastPoint :=
  points.filter fun p => is_valid_coordinate p.lat p.lon

/-- Step 3's skip diagnostics: the name/area/lat/lon tuples of the
points failing the lenient check, in order. -/
def skippedList (points : List ForecastPoint) :
    List (Option String × Option String × ℚ × ℚ) :=
  (points.filter fun p => ¬ is_valid_coordinate p.lat p.lon).map skippedTuple

/-- The `(point, distance)` pairs computed for surviving candidates. -/
def distList (d : ℚ → ℚ → ℚ → ℚ → ℚ) (user_lat user_lon : ℚ)
    (points : List ForecastPoint) : List (ForecastPoint × ℚ) :=
  (validCandidates points).map fun p => (p, d user_lat user_lon p.lat p.lon)

/-- Step 5's `min_distance` over surviving candidates (0 when none
survive; only evaluated on a nonempty list). -/
def minDistance (d : ℚ → ℚ → ℚ → ℚ → ℚ) (user_lat user_lon : ℚ)
    (points : List ForecastPoint) : ℚ :=
  match distList d user_lat user_lon points with
  | [] => 0
  | pd :: rest => listMin pd.2 (rest.map Prod.snd)

/-- Step 5's near-tie set: candidates whose distance is within
`EPSILON_KM` of the minimum. -/
def tieSet (d : ℚ → ℚ → ℚ → ℚ → ℚ) (user_lat user_lon : ℚ)
    (points : List ForecastPoint) : List ForecastPoint :=
  ((distList d user_lat user_lon points).filter
    fun pd => |pd.2 - minDistance d user_lat user_lon points| ≤ EPSILON_KM).map Prod.fst

/-- Step 6: return the sole near-tie candidate, or `candidates[0]`
after the deterministic key sort (the head always exists on the
nonempty near-tie sets this is called with). -/
def tieBreak (ts : List ForecastPoint) : Except PickError ForecastPoint :=
  match ts with
  | [c] => .ok c
  | ts =>
    match (sortByKey ts).head? with
    | some c => .ok c
    | none => .error .emptyPoints

/-- `pick_nearest_point(user_lat, user_lon, points)` over an abstract
distance function `d`: strict user validation, empty-list rejection,
lenient per-point validity filter with skip diagnostics, the all-invalid
error, then the near-tie selection (steps 5–6). -/
def pick_nearest_point (d : ℚ → ℚ → ℚ → ℚ → ℚ) (user_lat user_lon : ℚ)
    (points : List ForecastPoint) : Except PickError ForecastPoint :=
  if ¬ (-90 ≤ user_lat ∧ user_lat ≤ 90) then .error (.invalidUserLat user_lat)
  else if ¬ (-180 ≤ user_lon ∧ user_lon ≤ 180) then .error (.invalidUserLon user_lon)
  else if points = [] then .error .emptyPoints
  else if distList d user_lat user_lon points = [] then
    .error (.allInvalid points.length (skippedList points).length (skippedList points))
  else
    tieBreak (tieSet d user_lat user_lon points)

/-! ## JSON value model

The raw MoAG payload is parsed JSON: Python dicts (insertion-ordered
association lists), lists, strings, numbers, booleans and `None`. -/

/-- A parsed JSON value as Python represents it. -/
inductive JsonValue where
  | null
  | bool (b : Bool)
  | num (q : ℚ)
  | str (s : String)
  | arr (items : List JsonValue)
  | obj (fields : List (String × JsonValue))

/-- Python truthiness of a JSON value. -/
def jsonTruthy : JsonValue → Bool
  | .null => false
  | .bool b => b
  | .num q => q ≠ 0
  | .str s => s ≠ ""
  | .arr l => ¬ l.isEmpty
  | .obj l => ¬ l.isEmpty

/-- Continuation of a PEP-515 digit group after its first digit: digits
with single underscores strictly between digits. -/
def underscored : List Char → Bool
  | [] => true
  | '_' :: d :: rest => d.isDigit && underscored rest
  | ['_'] => false
  | d :: rest => d.isDigit && underscored rest

/-- A nonempty PEP-515 digit group (`1`, `1_000`, never `_1`, `1_`,
`1__0`). -/
def digitGroup : List Char → Bool
  | [] => false
  | d :: rest => d.isDigit && underscored rest

/-- Drop the underscore separators of a digit group. -/
def stripUnderscores (l : List Char) : List Char := l.filter (fun c => c ≠ '_')

/-- Split a literal at its first exponent marker `e`/`E`, if any. -/
def splitExp : List Char → List Char × Option (List Char)
  | [] => ([], none)
  | c :: rest =>
    if c = 'e' ∨ c = 'E' then ([], some rest)
    else
      let r := splitExp rest
      (c :: r.1, r.2)

/-- An exponent part: optional sign, then a digit group. -/
def parseExponent (l : List Char) : Option ℤ :=
  let signBody : ℤ × List Char :=
    match l with
    | '-' :: rest => (-1, rest)
    | '+' :: rest => (1, rest)
    | _ => (1, l)
  if digitGroup signBody.2 then
    some (signBody.1 * (digitsToNat (stripUnderscores signBody.2) : ℤ))
  else none

/-- A mantissa: a digit group with an optional decimal point, at least
one digit overall (`1`, `1.`, `.5`, `1_0.5_5`; never `.`, `1_.5`). -/
def parseMantissa (l : List Char) : Option ℚ :=
  match listSplitOn '.' l with
  | [intPart, fracPart] =>
    if (digitGroup intPart ∨ intPart = []) ∧ (digitGroup fracPart ∨ fracPart = []) ∧
        ¬ (intPart = [] ∧ fracPart = []) then
      let fd := stripUnderscores fracPart
      some ((digitsToNat (stripUnderscores intPart) : ℚ) +
        (digitsToNat fd : ℚ) / ((10 : ℚ) ^ fd.length))
    else none
  | [intPart] =>
    if digitGroup intPart then some ((digitsToNat (stripUnderscores intPart) : ℚ))
    else none
  | _ => none

/-- Python `float(str)` on finite numeric literals: optional surrounding
whitespace, optional sign, an underscore-grouped mantissa with an
optional decimal point, and an optional `e`/`E` exponent with its own
optional sign. The non-finite literals Python also accepts (`inf`,
`infinity`, `nan`, case-insensitively) have no rational counterpart and
fall outside this model. -/
def parseDecimal (s : String) : Option ℚ :=
  let t := (pyStrip s).data
  let signBody : ℚ × List Char :=
    match t with
    | '-' :: rest => (-1, rest)
    | '+' :: rest => (1, rest)
    | _ => (1, t)
  let me := splitExp signBody.2
  match parseMantissa me.1 with
  | none => none
  | some m =>
    match me.2 with
    | none => some (signBody.1 * m)
    | some expChars =>
      match parseExponent expChars with
      | none => none
      | some e => some (signBody.1 * m * (10 : ℚ) ^ e)

/-- Python `float(value)`: numbers pass through, booleans coerce to
0/1, numeric strings parse; `None`, lists and dicts raise (`none`). -/
def pyFloat : JsonValue → Option ℚ
  | .num q => some q
  | .bool b => some (if b then 1 else 0)
  | .str s => parseDecimal s
  | _ => none

/-- Python `str(value)` for the JSON values that reach `str(name)`;
container renderings are abbreviated (no claim depends on them). -/
def pyStr : JsonValue → String
  | .null => "None"
  | .bool true => "True"
  | .bool false => "False"
  | .num q => toString q
  | .str s => s
  | .arr _ => "<list>"
  | .obj _ => "<dict>"

/-! ## MoAG parser (`app/data/moag_parser.py`) -/

/-- Gregorian leap year. -/
def isLeapYear (y : ℕ) : Bool := (y % 4 = 0 ∧ y % 100 ≠ 0) ∨ y % 400 = 0

/-- Days in a month. -/
def daysInMonth (y m : ℕ) : ℕ :=
  if m = 2 then (if isLeapYear y then 29 else 28)
  else if m = 4 ∨ m = 6 ∨ m = 9 ∨ m = 11 then 30
  else 31

/-- `datetime.strptime(s, "%Y-%m-%d")`: a four-digit year, a one- or
two-digit month in 1–12, a one- or two-digit day valid for that month,
separated by dashes, consuming the whole string. -/
def parseDate (s : String) : Option PDate :=
  match listSplitOn '-' s.data with
  | [ys, ms, ds] =>
    if ys.length = 4 ∧ ys.all Char.isDigit ∧
        1 ≤ ms.length ∧ ms.length ≤ 2 ∧ ms.all Char.isDigit ∧
        1 ≤ ds.length ∧ ds.length ≤ 2 ∧ ds.all Char.isDigit then
      let y := digitsToNat ys
      let m := digitsToNat ms
      let d := digitsToNat ds
      if 1 ≤ m ∧ m ≤ 12 ∧ 1 ≤ d ∧ d ≤ daysInMonth y m then
        some ⟨y, m, d⟩
      else none
    else none
  | _ => none

/-- The optional-temperature block (lines 138–151): a `try` over the two
sequential coercions; a failure abandons the rest of the block but keeps
assignments already made, and never skips the record. -/
def parseTemps (dd : List (String × JsonValue)) : Option ℚ × Option ℚ :=
  let raw1 := (dictGet dd "temp_min").getD .null
  let raw2 := (dictGet dd "temp_max").getD .null
  match raw1 with
  | .null =>
    match raw2 with
    | .null => (none, none)
    | v2 => match pyFloat v2 with
      | some q2 => (none, some q2)
      | none => (none, none)
  | v1 =>
    match pyFloat v1 with
    | none => (none, none)
    | some q1 =>
      match raw2 with
      | .null => (some q1, none)
      | v2 => match pyFloat v2 with
        | some q2 => (some q1, some q2)
        | none => (some q1, none)

/-- One `(date_str, date_data)` entry of a location's `data` map
(lines 94–173): skip when `date_data` is not a dict, the date key does
not parse, or `evap` is missing or non-numeric. -/
def parseDateRecord (area_name : String) (name_raw : JsonValue) (lat lon : ℚ)
    (entry : String × JsonValue) : List ForecastPoint :=
  match entry.2 with
  | .obj dd =>
    match parseDate entry.1 with
    | none => []
    | some dateObj =>
      let evap_raw := (dictGet dd "evap").getD .null
      match evap_raw with
      | .null => []
      | v =>
        match pyFloat v with
        | none => []
        | some evap =>
          let temps := parseTemps dd
          [{ date := dateObj, lat := lat, lon := lon, evap_mm := evap
             temp_min := temps.1, temp_max := temps.2
             name := match name_raw with | .null => none | n => some (pyStr n)
             geographic_area := if area_name = "" then none else some area_name }]
  | _ => []

/-- One location entry of an area (lines 57–173): skip when not a dict;
coordinate fields read with truthiness-based fallback (`lat or latitude`;
`long or longitude or lon`); `data` defaults to `{}` on a missing key and
must be a dict; coordinates coerced by `float` inside a `try`, then
checked against `None`. -/
def parseLocation (area_name : String) (locv : JsonValue) : List ForecastPoint :=
  match locv with
  | .obj fields =>
    let name_raw := (dictGet fields "name").getD .null
    let latA := (dictGet fields "lat").getD .null
    let latB := (dictGet fields "latitude").getD .null
    let lat_raw := if jsonTruthy latA then latA else latB
    let lonA := (dictGet fields "long").getD .null
    let lonB := (dictGet fields "longitude").getD .null
    let lonC := (dictGet fields "lon").getD .null
    let lon_raw := if jsonTruthy lonA then lonA else if jsonTruthy lonB then lonB else lonC
    let data := (dictGet fields "data").getD (.obj [])
    match data with
    | .obj dataFields =>
      let latRes : Option (Option ℚ) :=
        match lat_raw with
        | .null => some none
        | v => (pyFloat v).map some
      let lonRes : Option (Option ℚ) :=
        match lon_raw with
        | .null => some none
        | v => (pyFloat v).map some
      match latRes, lonRes with
      | some (some lat), some (some lon) =>
        dataFields.flatMap (parseDateRecord area_name name_raw lat lon)
      | some _, some _ => []
      | _, _ => []
    | _ => []
  | _ => []

/-- `parse_forecast_points(payload)`: a missing or falsy
`tempEvapRecord` or a missing/non-dict `areas` yields `[]`; a truthy
non-dict `tempEvapRecord` hits `.get` on a non-dict, whose
`AttributeError` the traversal-level handler converts into an
invalid-payload error; areas whose value is not a list are skipped. -/
def parse_forecast_points (payload : List (String × JsonValue)) :
    Except String (List ForecastPoint) :=
  let ter := (dictGet payload "tempEvapRecord").getD (.obj [])
  if ¬ jsonTruthy ter then .ok []
  else
    match ter with
    | .obj terFields =>
      let areas := (dictGet terFields "areas").getD (.obj [])
      match areas with
      | .obj areaList =>
        .ok (areaList.flatMap fun ae =>
          match ae.2 with
          | .arr locs => locs.flatMap (parseLocation ae.1)
          | _ => [])
      | _ => .ok []
    | _ => .error "Failed to parse forecast payload"

/-! ## MoAG client retry loop (`app/data/moag_client.py`)

Network attempts are an oracle indexed by attempt number; the loop of
`fetch_forecast_raw` is embedded together with the list of back-off
sleeps it performs. -/

/-- What one network attempt does. -/
inductive AttemptOutcome where
  | success (payload : List (String × JsonValue))
  | httpStatus (status : ℕ) (snippet : String)
  | jsonDecode (snippet : String)
  | timeout (msg : String)
  | connError (msg : String)

/-- `MoAGClientError` variants by origin. -/
inductive MoAGError where
  | httpError (status : ℕ) (snippet : String)
  | jsonError (snippet : String)
  | timeoutError (msg : String)
  | networkError (msg : String)
  | genericError (attempts : ℕ)
deriving DecidableEq, Repr

/-- Transport-level outcomes, the only retried kind. -/
def isTransient : AttemptOutcome → Bool
  | .timeout _ => true
  | .connError _ => true
  | _ => false

/-- The `last_error` recorded for a transport failure. -/
def transientErr : AttemptOutcome → MoAGError
  | .timeout m => .timeoutError m
  | .connError m => .networkError m
  | .success _ => .genericError 0
  | .httpStatus c s => .httpError c s
  | .jsonDecode s => .jsonError s

/-- The `for attempt in range(max_retries)` loop: `remaining` counts
attempts left (including the current one), `attempt` is the 0-based
index. A success returns; an HTTP-status or JSON-decode error raises
immediately; a transport failure records `last_error` and, when more
attempts remain (`attempt < max_retries - 1`), sleeps
`retry_delay * (attempt + 1)` seconds before retrying. After the loop,
the last recorded error is raised, or the generic failed-after-N error
when none was recorded. -/
def fetchGo (oracle : ℕ → AttemptOutcome) (retry_delay : ℚ) (max_retries : ℕ) :
    ℕ → ℕ → Option MoAGError → List ℚ →
    Except MoAGError (List (String × JsonValue)) × List ℚ
  | 0, _, lastErr, sleeps =>
    (match lastErr with
     | some e => (.error e, sleeps)
     | none => (.error (.genericError max_retries), sleeps))
  | remaining + 1, attempt, _lastErr, sleeps =>
    match oracle attempt with
    | .success p => (.ok p, sleeps)
    | .httpStatus c s => (.error (.httpError c s), sleeps)
    | .jsonDecode s => (.error (.jsonError s), sleeps)
    | .timeout m =>
      let sleeps' :=
        if 0 < remaining then sleeps ++ [retry_delay * ((attempt : ℚ) + 1)] else sleeps
      fetchGo oracle retry_delay max_retries remaining (attempt + 1)
        (some (.timeoutError m)) sleeps'
    | .connError m =>
      let sleeps' :=
        if 0 < remaining then sleeps ++ [retry_delay * ((attempt : ℚ) + 1)] else sleeps
      fetchGo oracle retry_delay max_retries remaining (attempt + 1)
        (some (.networkError m)) sleeps'

/-- `fetch_forecast_raw(date)` after date validation: run the retry
loop from attempt 0; returns the result together with the back-off
sleeps performed. -/
def fetch_forecast_raw (oracle : ℕ → AttemptOutcome) (retry_delay : ℚ)
    (max_retries : ℕ) : Except MoAGError (List (String × JsonValue)) × List ℚ :=
  fetchGo oracle retry_delay max_retries max_retries 0 none []

/-! ## Forecast service (`app/data/forecast_service.py`) -/

/-- The failures `get_forecast_points` can surface. -/
inductive ServiceError where
  | offlineMiss (date : String)
  | fetchFailed (e : MoAGError)
  | parseFailed (msg : String)

/-- The environment a single `get_forecast_points` call observes: the
first cache read, the effective offline mode, the fetch outcome, and the
post-failure fallback cache read (which may differ from the first when a
concurrent caller filled the cache). -/
structure ServiceWorld where
  cache1 : Option (List (String × JsonValue))
  offline : Bool
  fetchOutcome : Except MoAGError (List (String × JsonValue))
  cache2 : Option (List (String × JsonValue))

/-- Observable effects of one `get_forecast_points` call. -/
structure ServiceResult where
  result : Except ServiceError (List ForecastPoint)
  didFetch : Bool
  stored : Option (List (String × JsonValue))

/-- Parse a payload, tagging a parser failure. -/
def mapParse (payload : List (String × JsonValue)) :
    Except ServiceError (List ForecastPoint) :=
  match parse_forecast_points payload with
  | .ok l => .ok l
  | .error m => .error (.parseFailed m)

/-- `get_forecast_points(date, cache, offline_mode)`: cache hit → parse
and return (no fetch, no store); miss and offline → offline error; miss
and online → fetch, store the raw payload, parse; if the fetch raises
`MoAGClientError`, one more cache read, returning stale data on a hit or
re-raising the fetch error on a miss. -/
def get_forecast_points (date_str : String) (w : ServiceWorld) : ServiceResult :=
  match w.cache1 with
  | some payload => { result := mapParse payload, didFetch := false, stored := none }
  | none =>
    if w.offline then
      { result := .error (.offlineMiss date_str), didFetch := false, stored := none }
    else
      match w.fetchOutcome with
      | .ok payload =>
        { result := mapParse payload, didFetch := true, stored := some payload }
      | .error e =>
        match w.cache2 with
        | some stale => { result := mapParse stale, didFetch := true, stored := none }
        | none => { result := .error (.fetchFailed e), didFetch := true, stored := none }

/-! ## Statement-support definitions: concrete inputs and the
selection-policy vocabulary used by the theorems. -/

/-- `isinstance(v, dict)`. -/
def isObj : JsonValue → Bool
  | .obj _ => true
  | _ => false

/-- A farm profile with a latitude/longitude parameter, all required
fields supplied, efficiency omitted. -/
def farmProfile (la lo : ℚ) : ProfileInput :=
  { mode := .farm, lat := la, lon := lo, area_m2 := some 10,
    crop_name := some "tomato" }

/-- A profile with latitude 999 (outside `[-90, 90]`) and efficiency 0,
and all mode-required fields supplied. -/
def badLatProfile : ProfileInput :=
  { mode := .farm, lat := 999, lon := 0, area_m2 := some 10,
    crop_name := some "tomato", efficiency := some 0 }

/-- The farm profile of the spec's engine scale law: `area_m2=100`,
tomato at mid stage, `efficiency=0.85`. -/
def exampleProfile : ProfileInput :=
  { mode := .farm, lat := 32, lon := 35, area_m2 := some 100,
    crop_name := some "tomato", stage := some "mid",
    efficiency := some (17 / 20) }

/-- A forecast point with `evap_mm = 5`. -/
def exampleForecast : ForecastPoint :=
  { date := ⟨2024, 1, 15⟩, lat := 32, lon := 35, evap_mm := 5 }

/-- A catalog holding the shipped tomato record (`kc_initial=0.6,
kc_mid=1.15, kc_end=0.9`), used as a concrete catalog input. -/
def sampleCatalog : Catalog :=
  { crops := [("tomato",
      { coeffType := "stage", kc_initial := some (3 / 5),
        kc_mid := some (23 / 20), kc_end := some (9 / 10) })] }

/-- The plan computed for `exampleProfile`/`exampleForecast` with
`sampleCatalog`. -/
def examplePlan : IrrigationPlan :=
  { date := ⟨2024, 1, 15⟩
    mode := .farm
    liters_per_day := some (11500 / 17)
    liters_per_dunam := some (115000 / 17)
    ml_per_day := none
    pulses_per_day := 1
    inputs_kc := 23 / 20
    inputs_efficiency := 17 / 20
    inputs_area_m2 := 100
    inputs_evap_mm := 5
    coefficient_value_used := 23 / 20
    warnings := [] }

/-- A location entry whose `lat` holds the number 0 and which has no
`latitude` key; everything else is well-formed. -/
def locLatZero : JsonValue :=
  .obj [("name", .str "S"), ("lat", .num 0), ("long", .num 35),
        ("data", .obj [("2024-01-15", .obj [("evap", .num 5)])])]

/-- The same location entry with an explicit `latitude: 0` fallback
key added. -/
def locLatitudeZero : JsonValue :=
  .obj [("name", .str "S"), ("lat", .num 0), ("latitude", .num 0),
        ("long", .num 35),
        ("data", .obj [("2024-01-15", .obj [("evap", .num 5)])])]

/-- A payload holding `locLatZero` under area `"A"`. -/
def payloadLatZero : List (String × JsonValue) :=
  [("tempEvapRecord", .obj [("areas", .obj [("A", .arr [locLatZero])])])]

/-- A payload holding `locLatitudeZero` under area `"A"`. -/
def payloadLatitudeZero : List (String × JsonValue) :=
  [("tempEvapRecord", .obj [("areas", .obj [("A", .arr [locLatitudeZero])])])]

/-- The record `payloadLatitudeZero` parses to. -/
def latitudeZeroPoint : ForecastPoint :=
  { date := ⟨2024, 1, 15⟩, lat := 0, lon := 35, evap_mm := 5,
    name := some "S", geographic_area := some "A" }

/-- A simple concrete distance function (returns the candidate's
latitude), standing in for `haversine_km` in concrete selection runs. -/
def dLat : ℚ → ℚ → ℚ → ℚ → ℚ := fun _ _ plat _ => plat

/-- A forecast point with valid coordinates. -/
def ptA : ForecastPoint :=
  { date := ⟨2024, 1, 15⟩, lat := 1, lon := 1, evap_mm := 5,
    name := some "A", geographic_area := some "North" }

/-- A forecast point with an out-of-range latitude (100). -/
def ptB : ForecastPoint :=
  { date := ⟨2024, 1, 15⟩, lat := 100, lon := 1, evap_mm := 5 }

/-- A network oracle whose first attempt times out and whose second
returns HTTP 500. -/
def sampleOracle : ℕ → AttemptOutcome :=
  fun i => if i = 0 then .timeout "t" else .httpStatus 500 "boom"

/-- An environment for the stale-fallback branch: empty first cache
read, online, failing fetch, stale data on the second read. -/
def staleWorld : ServiceWorld :=
  { cache1 := none
    offline := false
    fetchOutcome := .error (.timeoutError "t")
    cache2 := some [("tempEvapRecord", .num 0)] }

/-! # Theorems -/

/-- C3 counterexample: `m2_to_dunam(-5)` does not fail — it returns
`-0.005` — so the claim that every unit helper rejects negative inputs,
and in particular that `m2_to_dunam` fails for every negative input,
is false on the code. -/
theorem c3_counterexample : m2_to_dunam (-5) = .ok (-5 / 1000) := by
  rfl

/-- C3 (amended): `mm_to_liters`, `dunam_to_m2`, `liters_to_ml` and
`liters_per_dunam_to_mm_per_day` each validate non-negativity of their
numeric inputs and fail with an invalid-input error on any negative
input; `m2_to_dunam` performs no validation and returns `m2 / 1000`
for every input, negative ones included. -/
theorem c3_units_negative_validation :
    (∀ mm a : ℚ, mm < 0 → mm_to_liters mm a = .error "mm must be non-negative") ∧
    (∀ mm a : ℚ, 0 ≤ mm → a < 0 →
      mm_to_liters mm a = .error "area_m2 must be non-negative") ∧
    (∀ x : ℚ, x < 0 → dunam_to_m2 x = .error "dunam must be non-negative") ∧
    (∀ x : ℚ, x < 0 → liters_to_ml x = .error "liters must be non-negative") ∧
    (∀ x : ℚ, x < 0 →
      liters_per_dunam_to_mm_per_day x = .error "liters_per_dunam must be non-negative") ∧
    (∀ x : ℚ, m2_to_dunam x = .ok (x / 1000)) := by
  refine ⟨?_, ?_, ?_, ?_, ?_, ?_⟩
  · intro mm a h
    simp [mm_to_liters, h]
  · intro mm a h0 h1
    simp [mm_to_liters, h1, not_lt.mpr h0]
  · intro x h
    simp [dunam_to_m2, h]
  · intro x h
    simp [liters_to_ml, h]
  · intro x h
    simp [liters_per_dunam_to_mm_per_day, h]
  · intro x
    rfl

/-- C3 witness: the negativity rejections evaluated at −1 and the
non-validation of `m2_to_dunam` at −5. -/
theorem c3_units_negative_validation_witness :
    mm_to_liters (-1) 1 = .error "mm must be non-negative" ∧
    mm_to_liters 1 (-1) = .error "area_m2 must be non-negative" ∧
    dunam_to_m2 (-1) = .error "dunam must be non-negative" ∧
    liters_to_ml (-1) = .error "liters must be non-negative" ∧
    liters_per_dunam_to_mm_per_day (-1) = .error "liters_per_dunam must be non-negative" ∧
    m2_to_dunam (-5) = .ok (-5 / 1000) :=
  ⟨c3_units_negative_validation.1 (-1) 1 (by norm_num),
   c3_units_negative_validation.2.1 1 (-1) (by norm_num) (by norm_num),
   c3_units_negative_validation.2.2.1 (-1) (by norm_num),
   c3_units_negative_validation.2.2.2.1 (-1) (by norm_num),
   c3_units_negative_validation.2.2.2.2.1 (-1) (by norm_num),
   c3_units_negative_validation.2.2.2.2.2 (-5)⟩

/-- C4 counterexample: construction succeeds for a profile whose
latitude is 999 (outside `[-90, 90]`) and whose efficiency is exactly 0,
so neither the claimed latitude/longitude range check nor the claimed
rejection of `efficiency = 0` exists at construction. -/
theorem c4_counterexample : mkProfileInput badLatProfile = .ok badLatProfile := by
  rfl

/-- C4 (amended): constructing a `ProfileInput` performs a range check
on `efficiency` (it must lie in `[0, 1]`; values below 0 or above 1 are
rejected with an invalid-input error) and mode-conditional
required-field checks; latitude and longitude are not range-checked at
construction, and `efficiency = 0` is accepted. -/
theorem c4_profile_construction_validation :
    (∀ (p : ProfileInput) (e : ℚ), p.efficiency = some e → (e < 0 ∨ 1 < e) →
      mkProfileInput p =
        .error "efficiency: Input should be greater than or equal to 0 and less than or equal to 1") ∧
    (∀ p : ProfileInput, p.mode = .farm → p.efficiency = none →
      truthyQ p.area_m2 = false → truthyQ p.area_dunam = false →
      mkProfileInput p = .error "Farm mode requires either area_m2 or area_dunam") ∧
    (∀ la lo : ℚ, mkProfileInput (farmProfile la lo) = .ok (farmProfile la lo)) ∧
    (∀ la lo : ℚ,
      mkProfileInput { farmProfile la lo with efficiency := some 0 } =
        .ok { farmProfile la lo with efficiency := some 0 }) := by
  refine ⟨?_, ?_, ?_, ?_⟩
  · intro p e he hrange
    simp [mkProfileInput, he, hrange]
  · intro p hm he h1 h2
    simp [mkProfileInput, he, validate_mode_fields, hm, h1, h2]
  · intro la lo
    rfl
  · intro la lo
    rfl

/-- C4 witness: a profile with efficiency 1.5 is rejected by the field
range check; a farm profile with no area is rejected by the
required-field check; latitude 12345 is accepted. -/
theorem c4_profile_construction_validation_witness :
    mkProfileInput { farmProfile 1 2 with efficiency := some (3 / 2) } =
      .error "efficiency: Input should be greater than or equal to 0 and less than or equal to 1" ∧
    mkProfileInput { mode := .farm, lat := 1, lon := 2 } =
      .error "Farm mode requires either area_m2 or area_dunam" ∧
    mkProfileInput (farmProfile 12345 (-12345)) = .ok (farmProfile 12345 (-12345)) :=
  ⟨c4_profile_construction_validation.1 _ (3 / 2) rfl (by norm_num),
   c4_profile_construction_validation.2.1 _ rfl rfl rfl rfl,
   c4_profile_construction_validation.2.2.1 12345 (-12345)⟩

/-- C10: the mode-conditional required-field check uses Python
truthiness, so explicitly supplying `area_m2 = 0.0` (farm, no
`area_dunam`), `area_dunam = 0.0` (farm, no `area_m2`), or
`pot_volume_liters = 0.0` (plant, no `pot_diameter_cm`) fails
construction with the corresponding missing-field error. -/
theorem c10_truthiness_required_fields :
    (∀ (la lo : ℚ) (cn st : Option String),
      mkProfileInput { mode := .farm, lat := la, lon := lo, area_m2 := some 0,
                       crop_name := cn, stage := st } =
        .error "Farm mode requires either area_m2 or area_dunam") ∧
    (∀ (la lo : ℚ) (cn : Option String),
      mkProfileInput { mode := .farm, lat := la, lon := lo, area_dunam := some 0,
                       crop_name := cn } =
        .error "Farm mode requires either area_m2 or area_dunam") ∧
    (∀ (la lo : ℚ) (pn : Option String),
      mkProfileInput { mode := .plant, lat := la, lon := lo,
                       pot_volume_liters := some 0, plant_profile_name := pn } =
        .error "Plant mode requires either pot_volume_liters or pot_diameter_cm") := by
  refine ⟨?_, ?_, ?_⟩ <;> intros <;>
    simp [mkProfileInput, validate_mode_fields, truthyQ]

/-! ### Engine helper lemmas -/

/-- A successful `mm_to_liters` returns the product. -/
theorem mm_to_liters_ok {mm a b : ℚ} (h : mm_to_liters mm a = .ok b) : b = mm * a := by
  unfold mm_to_liters at h
  split at h
  · exact absurd h (by simp)
  · split at h
    · exact absurd h (by simp)
    · simpa using h.symm

/-- A successful `liters_to_ml` returns `liters * 1000`. -/
theorem liters_to_ml_ok {x y : ℚ} (h : liters_to_ml x = .ok y) : y = x * 1000 := by
  unfold liters_to_ml at h
  split at h
  · exact absurd h (by simp)
  · simpa using h.symm

/-- A successful `mm_to_liters` had a non-negative depth input. -/
theorem mm_to_liters_ok_nonneg {mm a b : ℚ} (h : mm_to_liters mm a = .ok b) : 0 ≤ mm := by
  unfold mm_to_liters at h
  split at h
  · exact absurd h (by simp)
  · next hc => exact not_lt.mp hc

/-- Area/Kc resolution never returns a non-positive area (the engine
checks `area_m2 <= 0` in both modes). -/
theorem resolveAreaKc_pos {catalog : Catalog} {p : ProfileInput} {a kc : ℚ}
    {ws : List String} (h : resolveAreaKc catalog p = .ok (a, kc, ws)) : 0 < a := by
  unfold resolveAreaKc at h
  split at h <;> split at h
  · exact absurd h (by simp)
  · split at h
    · exact absurd h (by simp)
    · next hpos =>
      split at h
      · exact absurd h (by simp)
      · exact absurd h (by simp)
      · simp only [Except.ok.injEq, Prod.mk.injEq] at h
        obtain ⟨h1, -, -⟩ := h
        exact h1 ▸ not_le.mp hpos
  · exact absurd h (by simp)
  · split at h
    · exact absurd h (by simp)
    · next hpos =>
      split at h
      · exact absurd h (by simp)
      · exact absurd h (by simp)
      · simp only [Except.ok.injEq, Prod.mk.injEq] at h
        obtain ⟨h1, -, -⟩ := h
        exact h1 ▸ not_le.mp hpos

/-- Area/Kc resolution reads no efficiency field: replacing
`efficiency` leaves it unchanged. -/
theorem resolveAreaKc_efficiency_irrelevant (catalog : Catalog) (p : ProfileInput)
    (e : Option ℚ) :
    resolveAreaKc catalog { p with efficiency := e } = resolveAreaKc catalog p := rfl

/-- Characterization of a successful farm-mode computation with an
explicit efficiency: the resolved pieces and the liters formula. -/
theorem compute_plan_farm_spec {catalog : Catalog} {p : ProfileInput}
    {f : ForecastPoint} {plan : IrrigationPlan} {e : ℚ}
    (h : compute_plan catalog p f = .ok plan)
    (hm : p.mode = .farm) (he : p.efficiency = some e) :
    ∃ area kc ws, resolveAreaKc catalog p = .ok (area, kc, ws) ∧
      0 < e ∧ e ≤ 1 ∧ 0 ≤ f.evap_mm * kc ∧ 0 < area ∧
      plan.inputs_kc = kc ∧ plan.inputs_area_m2 = area ∧
      plan.inputs_evap_mm = f.evap_mm ∧ plan.inputs_efficiency = e ∧
      plan.liters_per_day = some (max 0 (f.evap_mm * kc * area / e)) := by
  unfold compute_plan at h
  split at h
  · exact absurd h (by simp)
  · next area kc ws hres =>
    have heff : resolveEfficiency p = e := by
      unfold resolveEfficiency
      rw [he]
    rw [heff] at h
    split at h
    · exact absurd h (by simp)
    · next hbounds =>
      push_neg at hbounds
      split at h
      · exact absurd h (by simp)
      · next base hml =>
        rw [hm] at h
        simp only [Except.ok.injEq] at h
        subst h
        refine ⟨area, kc, ws, hres, hbounds.1, hbounds.2, mm_to_liters_ok_nonneg hml,
          resolveAreaKc_pos hres, ?_, ?_, ?_, ?_, ?_⟩ <;>
          simp [farmPlan, mm_to_liters_ok hml]

/-- C1: for every successful `compute_plan` call the daily water amount
is `max(0, evap_mm * kc * area_m2 / efficiency)` over the resolved
values recorded in `inputs_used` (farm mode reports it as
`liters_per_day`, plant mode as `ml_per_day = 1000×` that amount); with
`evap_mm=5, area_m2=100, efficiency=0.85` and a catalog resolving
tomato/mid to `kc=1.15`, `liters_per_day = 11500/17 (≈ 676.47)`; and
with evap, kc and area strictly positive, halving an explicit
efficiency strictly increases `liters_per_day`. -/
theorem c1_engine_formula :
    (∀ (catalog : Catalog) (p : ProfileInput) (f : ForecastPoint)
        (plan : IrrigationPlan), compute_plan catalog p f = .ok plan →
      plan.inputs_evap_mm = f.evap_mm ∧
      (p.mode = .farm → plan.liters_per_day =
        some (max 0 (plan.inputs_evap_mm * plan.inputs_kc * plan.inputs_area_m2 /
          plan.inputs_efficiency))) ∧
      (p.mode = .plant → plan.ml_per_day =
        some (max 0 (plan.inputs_evap_mm * plan.inputs_kc * plan.inputs_area_m2 /
          plan.inputs_efficiency) * 1000))) ∧
    (∀ (catalog : Catalog) (plan : IrrigationPlan),
      get_kc_stage catalog "tomato" "mid" = .ok (23 / 20) →
      compute_plan catalog exampleProfile exampleForecast = .ok plan →
      plan.liters_per_day = some (11500 / 17)) ∧
    (∀ (catalog : Catalog) (p : ProfileInput) (f : ForecastPoint)
        (plan plan' : IrrigationPlan) (e v v' : ℚ),
      p.mode = .farm → p.efficiency = some e →
      compute_plan catalog p f = .ok plan →
      compute_plan catalog { p with efficiency := some (e / 2) } f = .ok plan' →
      0 < f.evap_mm → 0 < plan.inputs_kc →
      plan.liters_per_day = some v → plan'.liters_per_day = some v' →
      v < v') := by
  refine ⟨?_, ?_, ?_⟩
  · intro catalog p f plan h
    unfold compute_plan at h
    split at h
    · exact absurd h (by simp)
    · next area kc ws hres =>
      split at h
      · exact absurd h (by simp)
      · split at h
        · exact absurd h (by simp)
        · next base hml =>
          split at h
          · next hmode =>
            simp only [Except.ok.injEq] at h
            subst h
            refine ⟨by simp [farmPlan], fun _ => ?_, fun hpm => ?_⟩
            · simp [farmPlan, mm_to_liters_ok hml]
            · rw [hmode] at hpm
              exact absurd hpm (by simp)
          · next hmode =>
            split at h
            · exact absurd h (by simp)
            · next ml hmlml =>
              simp only [Except.ok.injEq] at h
              subst h
              refine ⟨by simp [plantPlan], fun hpm => ?_, fun _ => ?_⟩
              · rw [hmode] at hpm
                exact absurd hpm (by simp)
              · simp [plantPlan, liters_to_ml_ok hmlml, mm_to_liters_ok hml]
  · intro catalog plan hkc h
    rw [compute_plan] at h
    rw [show resolveAreaKc catalog exampleProfile = .ok (100, 23 / 20, []) by
      simp [resolveAreaKc, resolveFarmArea, resolveStage, exampleProfile, hkc]] at h
    rw [show resolveEfficiency exampleProfile = 17 / 20 from rfl] at h
    norm_num [mm_to_liters, exampleForecast, exampleProfile] at h
    rw [← h]
    simp only [farmPlan]
  · intro catalog p f plan plan' e v v' hm he h h' hevap hkcpos hv hv'
    obtain ⟨area, kc, ws, hres, he0, he1, _, harea, hkceq, _, _, _, hl⟩ :=
      compute_plan_farm_spec h hm he
    obtain ⟨area2, kc2, ws2, hres2, he0', _, _, _, _, _, _, _, hl'⟩ :=
      compute_plan_farm_spec h' hm (rfl)
    rw [resolveAreaKc_efficiency_irrelevant, hres] at hres2
    simp only [Except.ok.injEq, Prod.mk.injEq] at hres2
    obtain ⟨ha2, hk2, -⟩ := hres2
    subst ha2 hk2
    rw [hl] at hv
    rw [hl'] at hv'
    simp only [Option.some.injEq] at hv hv'
    have hkc : 0 < kc := hkceq ▸ hkcpos
    have hB : 0 < f.evap_mm * kc * area := by positivity
    have hden : (0 : ℚ) < e / 2 := by linarith
    have hCv : v = f.evap_mm * kc * area / e :=
      hv.symm.trans (max_eq_right (le_of_lt (div_pos hB he0)))
    have hCv' : v' = f.evap_mm * kc * area / (e / 2) :=
      hv'.symm.trans (max_eq_right (le_of_lt (div_pos hB hden)))
    rw [hCv, hCv']
    rw [div_lt_div_iff₀ he0 hden]
    nlinarith [hB]

/-- C1 witness: the engine evaluated on the spec's example — tomato at
mid stage (`kc = 1.15` in the sample catalog), `area_m2 = 100`,
`efficiency = 0.85`, `evap_mm = 5` — yields
`liters_per_day = 11500/17`. -/
theorem c1_engine_formula_witness :
    compute_plan sampleCatalog exampleProfile exampleForecast = .ok examplePlan ∧
    examplePlan.liters_per_day = some (11500 / 17) := by
  have hkc : get_kc_stage sampleCatalog "tomato" "mid" = .ok (23 / 20) := by
    simp [get_kc_stage, sampleCatalog, dictGet,
      show pyStrip (pyLower "tomato") = "tomato" by decide,
      show pyStrip (pyLower "mid") = "mid" by decide]
  have hp : compute_plan sampleCatalog exampleProfile exampleForecast = .ok examplePlan := by
    rw [compute_plan]
    rw [show resolveAreaKc sampleCatalog exampleProfile = .ok (100, 23 / 20, []) by
      simp [resolveAreaKc, resolveFarmArea, resolveStage, exampleProfile, hkc]]
    rw [show resolveEfficiency exampleProfile = 17 / 20 from rfl]
    norm_num [mm_to_liters, exampleForecast, exampleProfile, farmPlan, examplePlan]
  exact ⟨hp, c1_engine_formula.2.1 sampleCatalog examplePlan hkc hp⟩

/-- C5: `get_forecast_points` policy — a cache hit parses and returns
the cached payload with no fetch and no store, even when offline mode is
disabled; a miss in offline mode fails with the offline-cache-miss
error; a miss online fetches, stores the raw payload, then parses; and a
failed fetch triggers one more cache read, returning the stale payload
on a hit and re-raising the fetch error on a miss. -/
theorem c5_forecast_service_policy :
    (∀ (date : String) (w : ServiceWorld) (payload : List (String × JsonValue)),
      w.cache1 = some payload →
      get_forecast_points date w =
        { result := mapParse payload, didFetch := false, stored := none }) ∧
    (∀ (date : String) (w : ServiceWorld),
      w.cache1 = none → w.offline = true →
      get_forecast_points date w =
        { result := .error (.offlineMiss date), didFetch := false, stored := none }) ∧
    (∀ (date : String) (w : ServiceWorld) (payload : List (String × JsonValue)),
      w.cache1 = none → w.offline = false → w.fetchOutcome = .ok payload →
      get_forecast_points date w =
        { result := mapParse payload, didFetch := true, stored := some payload }) ∧
    (∀ (date : String) (w : ServiceWorld) (e : MoAGError)
        (stale : List (String × JsonValue)),
      w.cache1 = none → w.offline = false → w.fetchOutcome = .error e →
      w.cache2 = some stale →
      get_forecast_points date w =
        { result := mapParse stale, didFetch := true, stored := none }) ∧
    (∀ (date : String) (w : ServiceWorld) (e : MoAGError),
      w.cache1 = none → w.offline = false → w.fetchOutcome = .error e →
      w.cache2 = none →
      get_forecast_points date w =
        { result := .error (.fetchFailed e), didFetch := true, stored := none }) := by
  refine ⟨?_, ?_, ?_, ?_, ?_⟩
  · intro date w payload h1
    simp [get_forecast_points, h1]
  · intro date w h1 h2
    simp [get_forecast_points, h1, h2]
  · intro date w payload h1 h2 h3
    simp [get_forecast_points, h1, h2, h3]
  · intro date w e stale h1 h2 h3 h4
    simp [get_forecast_points, h1, h2, h3, h4]
  · intro date w e h1 h2 h3 h4
    simp [get_forecast_points, h1, h2, h3, h4]

/-- C5 witness: the stale-fallback branch on a concrete environment —
failing fetch, stale cached payload with a falsy `tempEvapRecord` —
returns the parsed stale data with no error. -/
theorem c5_forecast_service_policy_witness :
    get_forecast_points "2024-01-15" staleWorld =
      { result := .ok [], didFetch := true, stored := none } := by
  have h := c5_forecast_service_policy.2.2.2.1 "2024-01-15" staleWorld
    (.timeoutError "t") [("tempEvapRecord", .num 0)] rfl rfl rfl rfl
  rw [h]
  simp [mapParse, parse_forecast_points, dictGet, jsonTruthy]

/-! ### Retry-loop helper lemmas -/

/-- One transient step of the retry loop with attempts left: record the
error, sleep `delay * (attempt + 1)`, move on. -/
theorem fetchGo_transient_step (oracle : ℕ → AttemptOutcome) (delay : ℚ)
    (maxR r idx : ℕ) (le : Option MoAGError) (sleeps : List ℚ)
    (h0 : isTransient (oracle idx) = true) :
    fetchGo oracle delay maxR (r + 1 + 1) idx le sleeps =
      fetchGo oracle delay maxR (r + 1) (idx + 1)
        (some (transientErr (oracle idx))) (sleeps ++ [delay * ((idx : ℚ) + 1)]) := by
  cases ho : oracle idx with
  | timeout m => simp [fetchGo, ho, transientErr]
  | connError m => simp [fetchGo, ho, transientErr]
  | success p => rw [ho] at h0; simp [isTransient] at h0
  | httpStatus c s => rw [ho] at h0; simp [isTransient] at h0
  | jsonDecode s => rw [ho] at h0; simp [isTransient] at h0

/-- Advancing the retry loop over a prefix of `j` transient attempts:
the loop state after `j` steps is the last transient error and the `j`
accumulated back-off sleeps. -/
theorem fetchGo_transient_run (oracle : ℕ → AttemptOutcome) (delay : ℚ)
    (maxR : ℕ) :
    ∀ (j rem idx : ℕ) (le : Option MoAGError) (sleeps : List ℚ),
      j ≤ rem →
      (∀ i, i < j → isTransient (oracle (idx + i)) = true) →
      fetchGo oracle delay maxR (rem + 1) idx le sleeps =
        fetchGo oracle delay maxR (rem + 1 - j) (idx + j)
          (if j = 0 then le else some (transientErr (oracle (idx + j - 1))))
          (sleeps ++ (List.range j).map fun i => delay * (((idx + i : ℕ) : ℚ) + 1)) := by
  intro j
  induction j with
  | zero =>
    intro rem idx le sleeps _ _
    simp
  | succ j ih =>
    intro rem idx le sleeps hj htr
    obtain ⟨r, rfl⟩ : ∃ r, rem = r + 1 := ⟨rem - 1, by omega⟩
    have h0 : isTransient (oracle idx) = true := by simpa using htr 0 (by omega)
    rw [fetchGo_transient_step oracle delay maxR r idx le sleeps h0]
    rw [ih r (idx + 1) (some (transientErr (oracle idx)))
      (sleeps ++ [delay * ((idx : ℚ) + 1)]) (by omega)
      (fun i hi => by
        have h := htr (i + 1) (by omega)
        have : idx + (i + 1) = idx + 1 + i := by omega
        rwa [this] at h)]
    have e1 : r + 1 + 1 - (j + 1) = r + 1 - j := by omega
    have e2 : idx + (j + 1) = idx + 1 + j := by omega
    rw [e1, e2, if_neg (Nat.succ_ne_zero j)]
    have herr2 : (if j = 0 then some (transientErr (oracle idx))
        else some (transientErr (oracle (idx + 1 + j - 1)))) =
        some (transientErr (oracle (idx + 1 + j - 1))) := by
      cases j with
      | zero => simp
      | succ k => simp
    rw [herr2]
    have hmap : ((List.range (j + 1)).map fun i =>
        delay * (((idx + i : ℕ) : ℚ) + 1)) =
        delay * ((idx : ℚ) + 1) ::
          ((List.range j).map fun i => delay * (((idx + 1 + i : ℕ) : ℚ) + 1)) := by
      rw [List.range_succ_eq_map, List.map_cons, List.map_map]
      refine congrArg₂ List.cons (by norm_num) ?_
      refine List.map_congr_left fun a _ => ?_
      simp only [Function.comp_apply]
      push_cast
      ring
    have hlist : (sleeps ++ [delay * ((idx : ℚ) + 1)]) ++
        ((List.range j).map fun i => delay * (((idx + 1 + i : ℕ) : ℚ) + 1)) =
        sleeps ++ ((List.range (j + 1)).map fun i =>
          delay * (((idx + i : ℕ) : ℚ) + 1)) := by
      rw [List.append_assoc, List.singleton_append, hmap]
    rw [hlist]

/-- C6: the retry policy of `fetch_forecast_raw` — after any prefix of
transient attempts, a success returns the payload, an HTTP-status or
JSON-decode error is raised immediately with no further attempt, and
the back-off sleeps performed are `retry_delay * 1, …, retry_delay * j`;
when every attempt is transient, the last recorded transport error is
raised after `max_retries` attempts with `max_retries - 1` sleeps; with
zero attempts the generic failed-after-N error is raised. -/
theorem c6_client_retry_policy :
    (∀ (oracle : ℕ → AttemptOutcome) (delay : ℚ) (maxR j : ℕ) (p : List (String × JsonValue)),
      j < maxR → (∀ i, i < j → isTransient (oracle i) = true) →
      oracle j = .success p →
      fetch_forecast_raw oracle delay maxR =
        (.ok p, (List.range j).map (fun i : ℕ => delay * ((i : ℚ) + 1)))) ∧
    (∀ (oracle : ℕ → AttemptOutcome) (delay : ℚ) (maxR j : ℕ) (c : ℕ) (s : String),
      j < maxR → (∀ i, i < j → isTransient (oracle i) = true) →
      oracle j = .httpStatus c s →
      fetch_forecast_raw oracle delay maxR =
        (.error (.httpError c s), (List.range j).map (fun i : ℕ => delay * ((i : ℚ) + 1)))) ∧
    (∀ (oracle : ℕ → AttemptOutcome) (delay : ℚ) (maxR j : ℕ) (s : String),
      j < maxR → (∀ i, i < j → isTransient (oracle i) = true) →
      oracle j = .jsonDecode s →
      fetch_forecast_raw oracle delay maxR =
        (.error (.jsonError s), (List.range j).map (fun i : ℕ => delay * ((i : ℚ) + 1)))) ∧
    (∀ (oracle : ℕ → AttemptOutcome) (delay : ℚ) (maxR : ℕ),
      0 < maxR → (∀ i, i < maxR → isTransient (oracle i) = true) →
      fetch_forecast_raw oracle delay maxR =
        (.error (transientErr (oracle (maxR - 1))),
         (List.range (maxR - 1)).map (fun i : ℕ => delay * ((i : ℚ) + 1)))) ∧
    (∀ (oracle : ℕ → AttemptOutcome) (delay : ℚ),
      fetch_forecast_raw oracle delay 0 = (.error (.genericError 0), [])) := by
  have hmain : ∀ (oracle : ℕ → AttemptOutcome) (delay : ℚ) (maxR j : ℕ),
      j < maxR → (∀ i, i < j → isTransient (oracle i) = true) →
      fetch_forecast_raw oracle delay maxR =
        fetchGo oracle delay maxR (maxR - j) j
          (if j = 0 then none else some (transientErr (oracle (j - 1))))
          ((List.range j).map (fun i : ℕ => delay * ((i : ℚ) + 1))) := by
    intro oracle delay maxR j hj htr
    obtain ⟨rem, rfl⟩ : ∃ rem, maxR = rem + 1 := ⟨maxR - 1, by omega⟩
    unfold fetch_forecast_raw
    rw [fetchGo_transient_run oracle delay (rem + 1) j rem 0 none [] (by omega)
      (fun i hi => by simpa using htr i hi)]
    simp only [Nat.zero_add, List.nil_append]
  refine ⟨?_, ?_, ?_, ?_, ?_⟩
  · intro oracle delay maxR j p hj htr ho
    rw [hmain oracle delay maxR j hj htr]
    obtain ⟨r, hr⟩ : ∃ r, maxR - j = r + 1 := ⟨maxR - j - 1, by omega⟩
    rw [hr]
    simp [fetchGo, ho]
  · intro oracle delay maxR j c s hj htr ho
    rw [hmain oracle delay maxR j hj htr]
    obtain ⟨r, hr⟩ : ∃ r, maxR - j = r + 1 := ⟨maxR - j - 1, by omega⟩
    rw [hr]
    simp [fetchGo, ho]
  · intro oracle delay maxR j s hj htr ho
    rw [hmain oracle delay maxR j hj htr]
    obtain ⟨r, hr⟩ : ∃ r, maxR - j = r + 1 := ⟨maxR - j - 1, by omega⟩
    rw [hr]
    simp [fetchGo, ho]
  · intro oracle delay maxR hpos htr
    obtain ⟨rem, rfl⟩ : ∃ rem, maxR = rem + 1 := ⟨maxR - 1, by omega⟩
    unfold fetch_forecast_raw
    rw [fetchGo_transient_run oracle delay (rem + 1) rem rem 0 none [] (le_refl rem)
      (fun i hi => by simpa using htr i (by omega))]
    have hlast : isTransient (oracle (0 + rem)) = true := by
      simpa using htr rem (by omega)
    cases hrem : rem with
    | zero =>
      subst hrem
      cases ho : oracle 0 with
      | timeout m => simp [fetchGo, ho, transientErr]
      | connError m => simp [fetchGo, ho, transientErr]
      | success p => rw [show (0 + 0 : ℕ) = 0 from rfl, ho] at hlast; simp [isTransient] at hlast
      | httpStatus c s => rw [show (0 + 0 : ℕ) = 0 from rfl, ho] at hlast; simp [isTransient] at hlast
      | jsonDecode s => rw [show (0 + 0 : ℕ) = 0 from rfl, ho] at hlast; simp [isTransient] at hlast
    | succ k =>
      subst hrem
      rw [show (0 + (k + 1) : ℕ) = k + 1 from by omega] at hlast
      cases ho : oracle (k + 1) with
      | timeout m => simp [fetchGo, ho, transientErr]
      | connError m => simp [fetchGo, ho, transientErr]
      | success p => rw [ho] at hlast; simp [isTransient] at hlast
      | httpStatus c s => rw [ho] at hlast; simp [isTransient] at hlast
      | jsonDecode s => rw [ho] at hlast; simp [isTransient] at hlast
  · intro oracle delay
    rfl

/-- C6 witness: a concrete oracle whose first attempt times out and
whose second returns HTTP 500 — the HTTP error is raised on attempt 2
with a single 1-second back-off sleep and no further retries. -/
theorem c6_client_retry_policy_witness :
    fetch_forecast_raw sampleOracle 1 3 = (.error (.httpError 500 "boom"), [1]) := by
  have h := c6_client_retry_policy.2.1 sampleOracle 1 3 1 500 "boom" (by norm_num)
    (fun i hi => by
      have : i = 0 := by omega
      subst this
      rfl)
    (by rfl)
  rw [h]
  norm_num [List.range_succ]

/-! ### Station-matching helper lemmas -/

/-- A left fold of `min` is attained by the seed or a list element. -/
theorem listMin_attained (x : ℚ) (xs : List ℚ) :
    listMin x xs = x ∨ listMin x xs ∈ xs := by
  induction xs generalizing x with
  | nil => exact Or.inl rfl
  | cons y ys ih =>
    have hstep : listMin x (y :: ys) = listMin (min x y) ys := rfl
    rw [hstep]
    rcases ih (min x y) with h | h
    · rcases min_choice x y with hm | hm
      · exact Or.inl (h.trans hm)
      · exact Or.inr (by rw [h, hm]; exact List.mem_cons_self y ys)
    · exact Or.inr (List.mem_cons_of_mem y h)

/-- When any candidate survives, the near-tie set is nonempty: the
minimum-achieving candidate is within epsilon of itself. -/
theorem tieSet_ne_nil {d : ℚ → ℚ → ℚ → ℚ → ℚ} {ulat ulon : ℚ}
    {pts : List ForecastPoint} (h : distList d ulat ulon pts ≠ []) :
    tieSet d ulat ulon pts ≠ [] := by
  obtain ⟨pd0, rest, hd⟩ : ∃ pd0 rest, distList d ulat ulon pts = pd0 :: rest := by
    cases hdl : distList d ulat ulon pts with
    | nil => exact absurd hdl h
    | cons a b => exact ⟨a, b, rfl⟩
  have hmin : minDistance d ulat ulon pts = listMin pd0.2 (rest.map Prod.snd) := by
    unfold minDistance
    rw [hd]
  have hatt : ∃ pd ∈ pd0 :: rest, pd.2 = minDistance d ulat ulon pts := by
    rcases listMin_attained pd0.2 (rest.map Prod.snd) with ha | ha
    · exact ⟨pd0, List.mem_cons_self pd0 rest, by rw [hmin, ha]⟩
    · obtain ⟨pd, hpd, hpd2⟩ := List.mem_map.mp ha
      exact ⟨pd, List.mem_cons_of_mem pd0 hpd, by rw [hmin, hpd2]⟩
  obtain ⟨pd, hpdmem, hpd2⟩ := hatt
  unfold tieSet
  intro hts
  rw [List.map_eq_nil_iff] at hts
  have hmem : pd ∈ (distList d ulat ulon pts).filter
      (fun pd => |pd.2 - minDistance d ulat ulon pts| ≤ EPSILON_KM) := by
    refine List.mem_filter.mpr ⟨by rw [hd]; exact hpdmem, ?_⟩
    rw [hpd2]
    simp [EPSILON_KM]
  rw [hts] at hmem
  exact List.not_mem_nil pd hmem

/-- The sort of step 6 is a permutation. -/
theorem sortByKey_perm (l : List ForecastPoint) : List.Perm (sortByKey l) l :=
  List.perm_insertionSort keyLe l

/-- The sort of step 6 sorts by the key order. -/
theorem sortByKey_sorted (l : List ForecastPoint) : (sortByKey l).Sorted keyLe :=
  List.sorted_insertionSort keyLe l

/-- Step 6's behavior on any nonempty candidate list: the returned
point is a member with a minimal sort key, and the sole member when the
list is a singleton. -/
theorem tieBreak_spec (ts : List ForecastPoint) (h : ts ≠ []) :
    ∃ q, tieBreak ts = .ok q ∧ q ∈ ts ∧ (∀ p ∈ ts, keyLe q p) ∧
      (∀ p, ts = [p] → q = p) := by
  cases ts with
  | nil => exact absurd rfl h
  | cons c cs =>
    cases cs with
    | nil =>
      refine ⟨c, by simp [tieBreak], List.mem_singleton_self c, ?_, ?_⟩
      · intro p hp
        rw [List.mem_singleton] at hp
        rw [hp]
        exact le_refl (sortKey c)
      · intro p hp
        exact ((List.cons.injEq c [] p []).mp hp).1
    | cons c2 cs2 =>
      have hsne : sortByKey (c :: c2 :: cs2) ≠ [] := by
        intro hnil
        have hlen := (sortByKey_perm (c :: c2 :: cs2)).length_eq
        rw [hnil] at hlen
        simp at hlen
      obtain ⟨q, qs, hq⟩ : ∃ q qs, sortByKey (c :: c2 :: cs2) = q :: qs := by
        cases hsk : sortByKey (c :: c2 :: cs2) with
        | nil => exact absurd hsk hsne
        | cons a b => exact ⟨a, b, rfl⟩
      refine ⟨q, by simp [tieBreak, hq], ?_, ?_, ?_⟩
      · exact (sortByKey_perm (c :: c2 :: cs2)).subset
          (by rw [hq]; exact List.mem_cons_self q qs)
      · intro p hp
        have hp' : p ∈ q :: qs := by
          rw [← hq]
          exact ((sortByKey_perm (c :: c2 :: cs2)).symm).subset hp
        have hs := sortByKey_sorted (c :: c2 :: cs2)
        rw [hq, List.sorted_cons] at hs
        rcases List.mem_cons.mp hp' with heq | hmem
        · rw [heq]
          exact le_refl (sortKey q)
        · exact hs.1 p hmem
      · intro p hp
        simp at hp

/-- Selection behavior on any input with a surviving candidate: the
returned point is in the near-tie set, has a minimal sort key there,
and is the sole member when the set is a singleton. -/
theorem pick_mem_tieSet (d : ℚ → ℚ → ℚ → ℚ → ℚ) (ulat ulon : ℚ)
    (pts : List ForecastPoint)
    (hlat : -90 ≤ ulat ∧ ulat ≤ 90) (hlon : -180 ≤ ulon ∧ ulon ≤ 180)
    (hvalid : ∃ p ∈ pts, is_valid_coordinate p.lat p.lon = true) :
    ∃ q, pick_nearest_point d ulat ulon pts = .ok q ∧
      q ∈ tieSet d ulat ulon pts ∧
      (∀ p ∈ tieSet d ulat ulon pts, keyLe q p) ∧
      (∀ p, tieSet d ulat ulon pts = [p] → q = p) := by
  obtain ⟨p0, hp0, hp0v⟩ := hvalid
  have hne : pts ≠ [] := by
    intro h
    rw [h] at hp0
    exact List.not_mem_nil p0 hp0
  have hdne : distList d ulat ulon pts ≠ [] := by
    unfold distList validCandidates
    intro h
    rw [List.map_eq_nil_iff] at h
    have hmem : p0 ∈ pts.filter (fun p => is_valid_coordinate p.lat p.lon) :=
      List.mem_filter.mpr ⟨hp0, hp0v⟩
    rw [h] at hmem
    exact List.not_mem_nil p0 hmem
  have htne := tieSet_ne_nil hdne
  unfold pick_nearest_point
  rw [if_neg (not_not_intro hlat), if_neg (not_not_intro hlon), if_neg hne,
    if_neg hdne]
  exact tieBreak_spec _ htne

/-- C2: with valid user coordinates and at least one valid candidate,
`pick_nearest_point` returns a point of the near-tie set (all candidates
within `EPSILON_KM = 0.001` of the minimum distance over valid
candidates); the returned point has a minimal
`(geographic_area or "", name or "", lat, lon)` sort key within that
set, and is its sole member whenever the set is a singleton. Stated over
an abstract distance function (the source instantiates it with
`haversine_km`); the embedding is a pure function, so repeated calls on
equal inputs are definitionally equal. -/
theorem c2_pick_nearest_selection :
    ∀ (d : ℚ → ℚ → ℚ → ℚ → ℚ) (ulat ulon : ℚ) (pts : List ForecastPoint),
      (-90 ≤ ulat ∧ ulat ≤ 90) → (-180 ≤ ulon ∧ ulon ≤ 180) →
      (∃ p ∈ pts, is_valid_coordinate p.lat p.lon = true) →
      ∃ q, pick_nearest_point d ulat ulon pts = .ok q ∧
        q ∈ tieSet d ulat ulon pts ∧
        (∀ p ∈ tieSet d ulat ulon pts, sortKey q ≤ sortKey p) ∧
        (∀ p, tieSet d ulat ulon pts = [p] → q = p) :=
  fun d ulat ulon pts hlat hlon hvalid =>
    pick_mem_tieSet d ulat ulon pts hlat hlon hvalid

/-- C2 witness: a concrete selection — one valid point and one point
with latitude 100 — returns the valid point, whose near-tie set is the
singleton containing it. -/
theorem c2_pick_nearest_selection_witness :
    pick_nearest_point dLat 0 0 [ptA, ptB] = .ok ptA ∧
    tieSet dLat 0 0 [ptA, ptB] = [ptA] := by
  have htie : tieSet dLat 0 0 [ptA, ptB] = [ptA] := by
    norm_num [tieSet, distList, validCandidates, minDistance, listMin,
      is_valid_coordinate, ptA, ptB, dLat, EPSILON_KM]
  obtain ⟨q, hok, hmem, hmin, hsingle⟩ := c2_pick_nearest_selection dLat 0 0
    [ptA, ptB] (by norm_num) (by norm_num)
    ⟨ptA, by simp, by norm_num [is_valid_coordinate, ptA]⟩
  exact ⟨(hsingle ptA htie) ▸ hok, htie⟩

/-- C8: when every point of a nonempty list has out-of-range
coordinates, `pick_nearest_point` raises the coordinate-matching
failure carrying `total_points = N`, `skipped_count = N` and every
point's name/area/lat/lon tuple in order; when at least one point has
valid coordinates, it returns a point instead of raising. -/
theorem c8_all_invalid_diagnostics :
    (∀ (d : ℚ → ℚ → ℚ → ℚ → ℚ) (ulat ulon : ℚ) (pts : List ForecastPoint),
      (-90 ≤ ulat ∧ ulat ≤ 90) → (-180 ≤ ulon ∧ ulon ≤ 180) →
      pts ≠ [] →
      (∀ p ∈ pts, is_valid_coordinate p.lat p.lon = false) →
      pick_nearest_point d ulat ulon pts =
        .error (.allInvalid pts.length pts.length (pts.map skippedTuple))) ∧
    (∀ (d : ℚ → ℚ → ℚ → ℚ → ℚ) (ulat ulon : ℚ) (pts : List ForecastPoint),
      (-90 ≤ ulat ∧ ulat ≤ 90) → (-180 ≤ ulon ∧ ulon ≤ 180) →
      (∃ p ∈ pts, is_valid_coordinate p.lat p.lon = true) →
      ∃ q, pick_nearest_point d ulat ulon pts = .ok q) := by
  constructor
  · intro d ulat ulon pts hlat hlon hne hall
    have hskip : skippedList pts = pts.map skippedTuple := by
      unfold skippedList
      congr 1
      refine List.filter_eq_self.mpr fun p hp => ?_
      simp [hall p hp]
    have hdist : distList d ulat ulon pts = [] := by
      unfold distList validCandidates
      rw [List.filter_eq_nil_iff.mpr fun p hp => by simp [hall p hp]]
      rfl
    unfold pick_nearest_point
    rw [if_neg (not_not_intro hlat), if_neg (not_not_intro hlon), if_neg hne,
      if_pos hdist, hskip, List.length_map]
  · intro d ulat ulon pts hlat hlon hvalid
    obtain ⟨q, hok, -⟩ := pick_mem_tieSet d ulat ulon pts hlat hlon hvalid
    exact ⟨q, hok⟩

/-- C8 witness: the all-invalid list `[ptB]` raises the diagnostic
error with `total_points = skipped_count = 1` and `ptB`'s tuple; the
mixed list `[ptB, ptA]` returns a point. -/
theorem c8_all_invalid_diagnostics_witness :
    pick_nearest_point dLat 0 0 [ptB] =
      .error (.allInvalid 1 1 [(none, none, 100, 1)]) ∧
    (pick_nearest_point dLat 0 0 [ptB, ptA]).isOk = true := by
  constructor
  · have h := c8_all_invalid_diagnostics.1 dLat 0 0 [ptB] (by norm_num) (by norm_num)
      (by simp)
      (fun p hp => by
        rw [List.mem_singleton] at hp
        subst hp
        norm_num [is_valid_coordinate, ptB])
    rw [h]
    simp [skippedTuple, ptB]
  · obtain ⟨q, hok⟩ := c8_all_invalid_diagnostics.2 dLat 0 0 [ptB, ptA]
      (by norm_num) (by norm_num)
      ⟨ptA, by simp, by norm_num [is_valid_coordinate, ptA]⟩
    rw [hok]
    rfl

/-- C9: the parser's coordinate fallback is truthiness-based — for any
location object whose `lat` field holds the number 0 and which has no
`latitude` key, the entry is skipped (no record is emitted for it, for
any `data` content); on the concrete payload this yields an empty parse,
while adding a `latitude: 0` fallback key makes the same entry parse
into a record with latitude 0. -/
theorem c9_lat_zero_truthiness :
    (∀ (area : String) (fields : List (String × JsonValue)),
      dictGet fields "lat" = some (.num 0) →
      dictGet fields "latitude" = none →
      parseLocation area (.obj fields) = []) ∧
    parse_forecast_points payloadLatZero = .ok [] ∧
    parse_forecast_points payloadLatitudeZero = .ok [latitudeZeroPoint] := by
  refine ⟨?_, by decide, by decide⟩
  intro area fields h1 h2
  simp only [parseLocation, h1, h2, Option.getD_some, Option.getD_none]
  norm_num [jsonTruthy]
  rcases (dictGet fields "data").getD (.obj []) with _ | b | q | s | items | dfields <;>
    try simp
  split <;> simp_all

/-- C9 witness: the skip rule evaluated on the concrete location entry
with `lat = 0` and no `latitude` key. -/
theorem c9_lat_zero_truthiness_witness :
    parseLocation "A" locLatZero = [] :=
  c9_lat_zero_truthiness.1 "A"
    [("name", .str "S"), ("lat", .num 0), ("long", .num 35),
     ("data", .obj [("2024-01-15", .obj [("evap", .num 5)])])]
    (by rfl) (by rfl)

/-- C7 counterexample: a payload whose `tempEvapRecord` is the (truthy,
non-dictionary) number 5 makes the parser raise the invalid-payload
error instead of returning an empty list, refuting the claim that every
non-dictionary `tempEvapRecord` yields an empty result. -/
theorem c7_counterexample :
    parse_forecast_points [("tempEvapRecord", .num 5)] =
      .error "Failed to parse forecast payload" := by
  decide

/-- C7 (amended): a missing or falsy `tempEvapRecord` (absent key,
`null`, `0`, `""`, `[]`, `{}`) and a missing or non-dictionary `areas`
yield an empty list, but a truthy non-dictionary `tempEvapRecord`
raises the invalid-payload error (its `.get` attribute access fails and
the traversal-level handler converts the fault); within each area, the
per-record tolerance holds in full: entries that are not objects, with
a non-object `data` map, with missing coordinates (no `lat`/`latitude`
key, or none of `long`/`longitude`/`lon`), or with an unparseable
coordinate value (one `float` raises on) are each skipped, records
whose date key does not parse or whose `evap` is missing or non-numeric
are skipped, and a skipped location entry or date record never affects
the records parsed from the surrounding entries. -/
theorem c7_parser_tolerance :
    (∀ payload : List (String × JsonValue),
      dictGet payload "tempEvapRecord" = none →
      parse_forecast_points payload = .ok []) ∧
    (∀ (payload : List (String × JsonValue)) (v : JsonValue),
      dictGet payload "tempEvapRecord" = some v → jsonTruthy v = false →
      parse_forecast_points payload = .ok []) ∧
    (∀ (payload : List (String × JsonValue)) (terFields : List (String × JsonValue)),
      dictGet payload "tempEvapRecord" = some (.obj terFields) →
      dictGet terFields "areas" = none →
      parse_forecast_points payload = .ok []) ∧
    (∀ (payload : List (String × JsonValue)) (terFields : List (String × JsonValue))
        (v : JsonValue),
      dictGet payload "tempEvapRecord" = some (.obj terFields) →
      dictGet terFields "areas" = some v → isObj v = false →
      parse_forecast_points payload = .ok []) ∧
    (∀ (payload : List (String × JsonValue)) (v : JsonValue),
      dictGet payload "tempEvapRecord" = some v → jsonTruthy v = true →
      isObj v = false →
      parse_forecast_points payload = .error "Failed to parse forecast payload") ∧
    (∀ (area : String) (v : JsonValue), isObj v = false →
      parseLocation area v = []) ∧
    (∀ (area : String) (l1 l2 : List JsonValue) (v : JsonValue),
      parseLocation area v = [] →
      (l1 ++ v :: l2).flatMap (parseLocation area) =
        (l1 ++ l2).flatMap (parseLocation area)) ∧
    (∀ (area : String) (n : JsonValue) (la lo : ℚ) (ds : String) (dd : JsonValue),
      (isObj dd = false ∨ parseDate ds = none →
        parseDateRecord area n la lo (ds, dd) = []) ∧
      (∀ ddf, dd = .obj ddf → dictGet ddf "evap" = none →
        parseDateRecord area n la lo (ds, dd) = []) ∧
      (∀ ddf v, dd = .obj ddf → dictGet ddf "evap" = some v → v ≠ .null →
        pyFloat v = none → parseDateRecord area n la lo (ds, dd) = [])) ∧
    (∀ (area : String) (fields : List (String × JsonValue)) (v : JsonValue),
      dictGet fields "data" = some v → isObj v = false →
      parseLocation area (.obj fields) = []) ∧
    (∀ (area : String) (fields : List (String × JsonValue)),
      dictGet fields "lat" = none → dictGet fields "latitude" = none →
      parseLocation area (.obj fields) = []) ∧
    (∀ (area : String) (fields : List (String × JsonValue)) (v : JsonValue),
      dictGet fields "lat" = some v → jsonTruthy v = true → pyFloat v = none →
      parseLocation area (.obj fields) = []) ∧
    (∀ (area : String) (fields : List (String × JsonValue)),
      dictGet fields "long" = none → dictGet fields "longitude" = none →
      dictGet fields "lon" = none →
      parseLocation area (.obj fields) = []) ∧
    (∀ (area : String) (n : JsonValue) (la lo : ℚ)
        (l1 l2 : List (String × JsonValue)) (entry : String × JsonValue),
      parseDateRecord area n la lo entry = [] →
      (l1 ++ entry :: l2).flatMap (parseDateRecord area n la lo) =
        (l1 ++ l2).flatMap (parseDateRecord area n la lo)) := by
  refine ⟨?_, ?_, ?_, ?_, ?_, ?_, ?_, ?_, ?_, ?_, ?_, ?_, ?_⟩
  · intro payload h
    simp [parse_forecast_points, h, jsonTruthy]
  · intro payload v h1 h2
    simp [parse_forecast_points, h1, h2]
  · intro payload terFields h1 h2
    unfold parse_forecast_points
    rw [h1]
    simp only [Option.getD_some]
    cases htr : jsonTruthy (.obj terFields) with
    | false => simp
    | true =>
      rw [h2]
      simp
  · intro payload terFields v h1 h2 hv
    unfold parse_forecast_points
    rw [h1]
    simp only [Option.getD_some]
    cases htr : jsonTruthy (.obj terFields) with
    | false => simp
    | true =>
      rw [h2]
      cases v <;> simp_all [isObj]
  · intro payload v h1 h2 hv
    unfold parse_forecast_points
    rw [h1]
    simp only [Option.getD_some]
    rw [h2]
    cases v <;> simp_all [isObj]
  · intro area v hv
    cases v <;> simp_all [isObj, parseLocation]
  · intro area l1 l2 v hv
    simp [List.flatMap_append, hv]
  · intro area n la lo ds dd
    refine ⟨?_, ?_, ?_⟩
    · intro h
      rcases h with h | h
      · cases dd <;> simp_all [isObj, parseDateRecord]
      · cases dd <;> simp [parseDateRecord, h]
    · intro ddf hdd hevap
      subst hdd
      simp only [parseDateRecord, hevap, Option.getD_none]
      cases parseDate ds <;> simp
    · intro ddf v hdd hevap hnn hpf
      subst hdd
      simp only [parseDateRecord, hevap, Option.getD_some]
      cases parseDate ds with
      | none => simp
      | some dt =>
        cases v <;> simp_all [pyFloat]
  · intro area fields v hdata hv
    simp only [parseLocation, hdata, Option.getD_some]
    cases v <;> simp_all [isObj]
  · intro area fields h1 h2
    simp only [parseLocation, h1, h2, Option.getD_none]
    norm_num [jsonTruthy]
    rcases (dictGet fields "data").getD (.obj []) with _ | b | q | s | items | dfields <;>
      try simp
    split <;> simp_all
  · intro area fields v hv htruthy hpf
    cases v with
    | null => simp [jsonTruthy] at htruthy
    | bool b => simp [pyFloat] at hpf
    | num q => simp [pyFloat] at hpf
    | str s =>
      simp only [parseLocation, hv, Option.getD_some, htruthy, if_true]
      rcases (dictGet fields "data").getD (.obj []) with _ | b | q | t | items | dfields <;>
        try simp
      simp only [pyFloat] at hpf
      split <;> simp_all [pyFloat]
    | arr items =>
      simp only [parseLocation, hv, Option.getD_some, htruthy, if_true]
      rcases (dictGet fields "data").getD (.obj []) with _ | b | q | t | items2 | dfields <;>
        try simp
      split <;> simp_all [pyFloat]
    | obj ofields =>
      simp only [parseLocation, hv, Option.getD_some, htruthy, if_true]
      rcases (dictGet fields "data").getD (.obj []) with _ | b | q | t | items | dfields <;>
        try simp
      split <;> simp_all [pyFloat]
  · intro area fields hlong hlongitude hlon
    simp only [parseLocation, hlong, hlongitude, hlon, Option.getD_none]
    norm_num [jsonTruthy]
    rcases (dictGet fields "data").getD (.obj []) with _ | b | q | s | items | dfields <;>
      try simp
    split <;> simp_all
  · intro area n la lo l1 l2 entry h
    simp [List.flatMap_append, h]

/-- C7 witness: the tolerant branches evaluated concretely — a falsy
`tempEvapRecord` parses to the empty list, a truthy string one raises,
and location entries that are not objects, have a non-object `data`
map, have no latitude key, or have an unparseable latitude value are
each skipped. -/
theorem c7_parser_tolerance_witness :
    parse_forecast_points [("tempEvapRecord", .bool false)] = .ok [] ∧
    parse_forecast_points [("tempEvapRecord", .str "x")] =
      .error "Failed to parse forecast payload" ∧
    parseLocation "A" (.str "junk") = [] ∧
    parseLocation "A" (.obj [("lat", .num 3), ("long", .num 4),
      ("data", .str "bad")]) = [] ∧
    parseLocation "A" (.obj [("name", .str "S")]) = [] ∧
    parseLocation "A" (.obj [("lat", .str "abc"), ("long", .num 4)]) = [] :=
  ⟨c7_parser_tolerance.2.1 [("tempEvapRecord", .bool false)] (.bool false)
      (by rfl) (by rfl),
   c7_parser_tolerance.2.2.2.2.1 [("tempEvapRecord", .str "x")] (.str "x")
      (by rfl) (by rfl) (by rfl),
   c7_parser_tolerance.2.2.2.2.2.1 "A" (.str "junk") (by rfl),
   c7_parser_tolerance.2.2.2.2.2.2.2.2.1 "A"
      [("lat", .num 3), ("long", .num 4), ("data", .str "bad")] (.str "bad")
      (by rfl) (by rfl),
   c7_parser_tolerance.2.2.2.2.2.2.2.2.2.1 "A" [("name", .str "S")]
      (by rfl) (by rfl),
   c7_parser_tolerance.2.2.2.2.2.2.2.2.2.2.1 "A"
      [("lat", .str "abc"), ("long", .num 4)] (.str "abc")
      (by rfl) (by rfl) (by rfl)⟩

end Irrigation
